import Mathlib

/-!
# SDS011 dust-sensor wire protocol: a shallow embedding

Shallow embedding of `SDS011/sds011.py` (class `Sds011`). A Python `bytes`
value is modelled as `List Nat` with every element below 256; `struct.pack`
and `struct.unpack` failures and the `PacketParseException` branches become
`Option`/`Except` values. The serial transport is abstracted away: functions
that read from the port take the 10-byte response frame as an argument.
-/

namespace Sds011

/-- Model of `Sds011.checksum` (source lines 170-183): a running sum over the
bytes, masked to 8 bits after every addition. Python `checksum &= 0xFF` on a
non-negative int is exactly `% 256`. -/
def checksum (togenerate : List Nat) : Nat :=
  togenerate.foldl (fun c i => (c + i) % 256) 0

/-- Model of `Sds011.checksum_incoming` (lines 148-156): checksum of
`packet[2:8]`. -/
def checksum_incoming (packet : List Nat) : Nat :=
  checksum ((packet.drop 2).take 6)

/-- Model of `Sds011.checksum_outgoing` (lines 159-167): checksum of
`packet[2:17]`. -/
def checksum_outgoing (packet : List Nat) : Nat :=
  checksum ((packet.drop 2).take 15)

/-- The three `PacketParseException` branches of
`extract_data_from_incoming_packet`, distinguished by their message strings:
`"No matching tags"`, `"Bytestream mismatch"`, `"Checksum missmatch"`. -/
inductive DecodeError where
  | noMatchingTags
  | bytestreamMismatch
  | checksumMismatch
deriving DecidableEq

/-- The dictionary `{"cmd": ..., "data": ..., "checksum": ...}` returned by
`extract_data_from_incoming_packet` on success. -/
structure ParsedResponse where
  cmd : Nat
  data : List Nat
  checksum : Nat
deriving DecidableEq

/-- Model of line 71 of the source:
`if not packet[0] != b"\xAA" and not packet[-1] != b"\xAB":`.
Since `packet` is a `bytes` object, `packet[0]` and `packet[-1]` are Python
ints, while `b"\xAA"` and `b"\xAB"` are `bytes` objects; in Python 3 an int
never equals a `bytes` value, so both `!=` comparisons are always true and
the conjunction of their negations is always false. The constant `true`
records this always-unequal int-vs-bytes comparison. -/
def intNeverEqBytes : Bool := true

/-- The guard of the `"No matching tags"` branch, as the source evaluates it:
`(not (packet[0] != b"\xAA")) and (not (packet[-1] != b"\xAB"))`, which is
constantly false (see `intNeverEqBytes`), so the branch is unreachable. -/
def tags_mismatch_guard (_packet : List Nat) : Bool :=
  (!intNeverEqBytes) && (!intNeverEqBytes)

/-- Model of `struct.unpack("<BHHHB", bs)`: requires exactly 8 bytes and
yields one u8, three little-endian u16 values, and one u8. This is the
default `unpack_scheme` of `extract_data_from_incoming_packet`; that scheme
makes `tmp = [cmd, field0, field1, field2, checksum]`. -/
def unpackBHHHB (bs : List Nat) : Option (Nat × Nat × Nat × Nat × Nat) :=
  match bs with
  | [b0, b1, b2, b3, b4, b5, b6, b7] =>
      some (b0, b1 + 256 * b2, b3 + 256 * b4, b5 + 256 * b6, b7)
  | _ => none

/-- Second half of `extract_data_from_incoming_packet` (lines 74-89): the
`try unpack / except` and, on success, constructing the result dictionary
from `tmp[0]`, `tmp[1:-1]`, `tmp[-1]`, then validating `tmp[-1]` against
`checksum_incoming(packet)`. -/
def decode_unpacked (packet : List Nat) :
    Option (Nat × Nat × Nat × Nat × Nat) → Except DecodeError ParsedResponse
  | none => .error .bytestreamMismatch
  | some (cmd, d0, d1, d2, cks) =>
      if cks ≠ checksum_incoming packet then .error .checksumMismatch
      else .ok ⟨cmd, [d0, d1, d2], cks⟩

/-- Model of `Sds011.extract_data_from_incoming_packet` (lines 62-89) with the
default `unpack_scheme="<BHHHB"`: the (unreachable) tag guard, then
`unpack(unpack_scheme, packet[1:-1])`, then checksum validation. -/
def extract_data_from_incoming_packet (packet : List Nat) :
    Except DecodeError ParsedResponse :=
  if tags_mismatch_guard packet then .error .noMatchingTags
  else decode_unpacked packet (unpackBHHHB ((packet.drop 1).dropLast))

/-- Model of `pack("BBBBBBBBBBBBBBBB", *vals)` (line 102): succeeds exactly
when 16 values are supplied and each fits in one unsigned byte, producing
those 16 bytes; otherwise `struct.error`, modelled as `none`. -/
def packB16 (vals : List Nat) : Option (List Nat) :=
  if vals.length = 16 ∧ ∀ v ∈ vals, v < 256 then some vals else none

/-- The class constant `outgoing_cmd = 0xB4` (line 25). -/
def outgoing_cmd : Nat := 0xB4

/-- Model of `Sds011.build_packet` (lines 92-108): head `0xAA`, then the
packed `[cmd] + data` (16 bytes), then `checksum_outgoing` of the packet so
far, then tail `0xAB`. -/
def build_packet (cmd : Nat) (data : List Nat) : Option (List Nat) :=
  match packB16 (cmd :: data) with
  | none => none
  | some body =>
      let packet := 0xAA :: body
      some (packet ++ [checksum_outgoing packet, 0xAB])

/-- Model of `Sds011.get_ID_bytes` (lines 131-144). `ID=None` is `none`; the
Python truthiness test `if ID:` is false for `None` and for the int `0`, so
both give the broadcast bytes. A present truthy value is split as
`ID0 = ID & 0xFF`, `ID1 = (ID & 0xFF00) >> 8`, returned `[ID0, ID1]`. -/
def get_ID_bytes (ID : Option Nat) : List Nat :=
  match ID with
  | some i => if i ≠ 0 then [i % 256, (i / 256) % 256] else [0xFF, 0xFF]
  | none => [0xFF, 0xFF]

/-- Model of `Sds011.build_packet_basic` (lines 111-128): data bytes, zero
padding up to 13 bytes, then the two ID bytes, passed to `build_packet` with
`outgoing_cmd`. Python `[0] * (13 - len(data))` is empty for negative
counts, exactly like `List.replicate` with truncated subtraction. -/
def build_packet_basic (data : List Nat) (ID : Option Nat) : Option (List Nat) :=
  build_packet outgoing_cmd
    (data ++ List.replicate (13 - data.length) 0 ++ get_ID_bytes ID)

/-- The `try/except PacketParseException` of `query_data` (lines 284-290):
the parsed data fields on success, the sentinel `[-1, -1, -1]` left in
`data` when decoding raised. -/
def sentinel_or_data (r : Except DecodeError ParsedResponse) : List ℤ :=
  match r with
  | .ok p => p.data.map Int.ofNat
  | .error _ => [-1, -1, -1]

/-- Model of `Sds011.query_data` (lines 274-292) with the serial exchange
abstracted: `response` is the 10-byte frame read back from the port. The
returned tuple is `(data[0] / 10.0, data[1] / 10.0, data[2])`; the float
divisions are modelled exactly in `ℚ`. -/
def query_data (response : List Nat) : ℚ × ℚ × ℤ :=
  let data := sentinel_or_data (extract_data_from_incoming_packet response)
  (((data.getD 0 0 : ℤ) : ℚ) / 10, ((data.getD 1 0 : ℤ) : ℚ) / 10, data.getD 2 0)

/-- Model of `Sds011.set_sleep_work_mode` (lines 239-251), transport
abstracted: the pair of the frame written to the port
(`build_packet_basic([6] + data, ID)`) and the Python return value, which is
unconditionally `True` (modelled `some true`; Python `None` is `none`). -/
def set_sleep_work_mode (data : List Nat) (ID : Option Nat) :
    Option (List Nat) × Option Bool :=
  (build_packet_basic (6 :: data) ID, some true)

/-- Model of `Sds011.set_sleep_mode` (lines 254-261): calls
`set_sleep_work_mode([1, 0], ID)` but has no `return` statement, so it
returns Python `None` (`none`). -/
def set_sleep_mode (ID : Option Nat) : Option (List Nat) × Option Bool :=
  ((set_sleep_work_mode [1, 0] ID).1, none)

/-- Model of `Sds011.set_work_mode` (lines 264-271): calls
`set_sleep_work_mode([1, 1], ID)` but has no `return` statement, so it
returns Python `None` (`none`). -/
def set_work_mode (ID : Option Nat) : Option (List Nat) × Option Bool :=
  ((set_sleep_work_mode [1, 1] ID).1, none)

/-- The literal reference frame `AA C0 D4 04 3A 0A A1 60 1D AB` from the
specification scenario. -/
def sampleFrame : List Nat :=
  [0xAA, 0xC0, 0xD4, 0x04, 0x3A, 0x0A, 0xA1, 0x60, 0x1D, 0xAB]

/-! ## Helper lemmas -/

lemma checksum_foldl (a : Nat) (l : List Nat) :
    l.foldl (fun c i => (c + i) % 256) (a % 256) = (a + l.sum) % 256 := by
  induction l generalizing a with
  | nil => simp
  | cons x xs ih =>
      rw [List.foldl_cons, List.sum_cons]
      have h1 : (a % 256 + x) % 256 = (a + x) % 256 := Nat.mod_add_mod a 256 x
      rw [h1, ← Nat.add_assoc]
      exact ih (a + x)

lemma checksum_eq_sum_mod (l : List Nat) : checksum l = l.sum % 256 := by
  have h := checksum_foldl 0 l
  simpa [checksum] using h

/-- The tag guard is constantly false, so decoding reduces to unpack plus
checksum validation. -/
lemma extract_eq (packet : List Nat) :
    extract_data_from_incoming_packet packet =
      decode_unpacked packet (unpackBHHHB ((packet.drop 1).dropLast)) := rfl

lemma unpackBHHHB_eq_none : ∀ (l : List Nat), l.length ≠ 8 → unpackBHHHB l = none
  | [], _ => rfl
  | [_], _ => rfl
  | [_, _], _ => rfl
  | [_, _, _], _ => rfl
  | [_, _, _, _], _ => rfl
  | [_, _, _, _, _], _ => rfl
  | [_, _, _, _, _, _], _ => rfl
  | [_, _, _, _, _, _, _], _ => rfl
  | [_, _, _, _, _, _, _, _], h => absurd rfl h
  | _ :: _ :: _ :: _ :: _ :: _ :: _ :: _ :: _ :: _, _ => rfl

lemma unpackBHHHB_some_length {l : List Nat} {t : Nat × Nat × Nat × Nat × Nat}
    (h : unpackBHHHB l = some t) : l.length = 8 := by
  by_contra hc
  rw [unpackBHHHB_eq_none l hc] at h
  exact Option.noConfusion h

lemma extract_ok_length {packet : List Nat} {r : ParsedResponse}
    (h : extract_data_from_incoming_packet packet = .ok r) :
    packet.length = 10 := by
  rw [extract_eq] at h
  cases hu : unpackBHHHB ((packet.drop 1).dropLast) with
  | none => rw [hu] at h; exact Except.noConfusion h
  | some t =>
      have h8 := unpackBHHHB_some_length hu
      rw [List.length_dropLast, List.length_drop] at h8
      omega

lemma shape_of_length_succ {n : Nat} (l : List Nat) (h : l.length = n + 1) :
    ∃ b t, l = b :: t ∧ t.length = n := by
  cases l with
  | nil => exact absurd h (by simp)
  | cons b t => exact ⟨b, t, rfl, by simpa using h⟩

lemma exists_ten (l : List Nat) (h : l.length = 10) :
    ∃ b0 b1 b2 b3 b4 b5 b6 b7 b8 b9 : Nat,
      l = [b0, b1, b2, b3, b4, b5, b6, b7, b8, b9] := by
  obtain ⟨b0, t0, rfl, h0⟩ := shape_of_length_succ l h
  obtain ⟨b1, t1, rfl, h1⟩ := shape_of_length_succ t0 h0
  obtain ⟨b2, t2, rfl, h2⟩ := shape_of_length_succ t1 h1
  obtain ⟨b3, t3, rfl, h3⟩ := shape_of_length_succ t2 h2
  obtain ⟨b4, t4, rfl, h4⟩ := shape_of_length_succ t3 h3
  obtain ⟨b5, t5, rfl, h5⟩ := shape_of_length_succ t4 h4
  obtain ⟨b6, t6, rfl, h6⟩ := shape_of_length_succ t5 h5
  obtain ⟨b7, t7, rfl, h7⟩ := shape_of_length_succ t6 h6
  obtain ⟨b8, t8, rfl, h8⟩ := shape_of_length_succ t7 h7
  obtain ⟨b9, t9, rfl, h9⟩ := shape_of_length_succ t8 h8
  rw [List.length_eq_zero.mp h9]
  exact ⟨b0, b1, b2, b3, b4, b5, b6, b7, b8, b9, rfl⟩

/-- Decoding a fully explicit 10-byte frame: the result is determined by
comparing the stored checksum byte against the 8-bit sum of the six data
bytes. -/
lemma extract_ten (p0 p1 p2 p3 p4 p5 p6 p7 p8 p9 : Nat) :
    extract_data_from_incoming_packet [p0, p1, p2, p3, p4, p5, p6, p7, p8, p9] =
      if p8 = (p2 + p3 + p4 + p5 + p6 + p7) % 256 then
        .ok ⟨p1, [p2 + 256 * p3, p4 + 256 * p5, p6 + 256 * p7], p8⟩
      else .error .checksumMismatch := by
  have hck : checksum_incoming [p0, p1, p2, p3, p4, p5, p6, p7, p8, p9] =
      (p2 + p3 + p4 + p5 + p6 + p7) % 256 := by
    show checksum [p2, p3, p4, p5, p6, p7] = _
    rw [checksum_eq_sum_mod]
    simp only [List.sum_cons, List.sum_nil]
    omega
  rw [extract_eq]
  show (if p8 ≠ checksum_incoming [p0, p1, p2, p3, p4, p5, p6, p7, p8, p9] then
          (.error .checksumMismatch : Except DecodeError ParsedResponse)
        else .ok ⟨p1, [p2 + 256 * p3, p4 + 256 * p5, p6 + 256 * p7], p8⟩) = _
  rw [hck]
  by_cases h : p8 = (p2 + p3 + p4 + p5 + p6 + p7) % 256 <;> simp [h]

lemma build_packet_some {cmd : Nat} {data p : List Nat}
    (h : build_packet cmd data = some p) :
    data.length = 15 ∧
      p = 0xAA :: cmd ::
        (data ++ [checksum_outgoing (0xAA :: cmd :: data), 0xAB]) := by
  unfold build_packet packB16 at h
  by_cases hc : (cmd :: data).length = 16 ∧ ∀ v ∈ cmd :: data, v < 256
  · rw [if_pos hc] at h
    simp only [Option.some.injEq] at h
    refine ⟨by simpa using hc.1, ?_⟩
    rw [← h]
    simp
  · rw [if_neg hc] at h
    exact Option.noConfusion h

lemma build_packet_none {cmd : Nat} {d : List Nat} (h : d.length ≠ 15) :
    build_packet cmd d = none := by
  unfold build_packet packB16
  rw [if_neg]
  intro hc
  exact h (by simpa using hc.1)

lemma get_ID_bytes_length (ID : Option Nat) : (get_ID_bytes ID).length = 2 := by
  cases ID with
  | none => rfl
  | some i => by_cases hi : i ≠ 0 <;> simp [get_ID_bytes, hi]

/-- When decoding fails, `query_data` returns the sentinel data divided
through by 10 in the first two components. -/
lemma query_data_error {response : List Nat} {e : DecodeError}
    (h : extract_data_from_incoming_packet response = .error e) :
    query_data response = ((-1 : ℚ) / 10, (-1 : ℚ) / 10, (-1 : ℤ)) := by
  unfold query_data
  rw [h]
  norm_num [sentinel_or_data, List.getD]

/-! ## Claim theorems -/

/-- The sample frame with its checksum byte corrupted to `0x00`
(the stored byte no longer matches the sum `0x1D` of the data bytes). -/
def corruptedFrame : List Nat :=
  [0xAA, 0xC0, 0xD4, 0x04, 0x3A, 0x0A, 0xA1, 0x60, 0x00, 0xAB]

/-- C1 counterexample: on a 10-byte response that fails checksum validation,
`query_data` does not return `(-1.0, -1.0, -1)`: the sentinel data list is
`[-1, -1, -1]`, but the first two components are divided by `10.0` on
return, so the tuple is `(-0.1, -0.1, -1)`. -/
theorem C1_counterexample :
    extract_data_from_incoming_packet corruptedFrame = .error .checksumMismatch ∧
      query_data corruptedFrame ≠ ((-1 : ℚ), (-1 : ℚ), (-1 : ℤ)) := by
  refine ⟨rfl, ?_⟩
  rw [@query_data_error corruptedFrame .checksumMismatch rfl]
  simp only [Prod.mk.injEq, ne_eq, not_and]
  intro h
  norm_num at h

/-- C1 amended: for every 10-byte response whose decode fails with a
protocol (parse/checksum) error, `query_data` returns
`(-1/10, -1/10, -1)` — the sentinel data fields are all `-1`, and the two
concentration fields are divided by `10.0` on return — instead of
raising. -/
theorem C1_sentinel_on_decode_failure (response : List Nat) (e : DecodeError)
    (_hlen : response.length = 10)
    (h : extract_data_from_incoming_packet response = .error e) :
    query_data response = ((-1 : ℚ) / 10, (-1 : ℚ) / 10, (-1 : ℤ)) :=
  query_data_error h

/-- C1 witness: the amended theorem applied to the concrete corrupted
frame. -/
theorem C1_witness :
    query_data corruptedFrame = ((-1 : ℚ) / 10, (-1 : ℚ) / 10, (-1 : ℤ)) :=
  C1_sentinel_on_decode_failure corruptedFrame .checksumMismatch rfl rfl

/-- The sample frame with its head byte replaced by `0x00`; the inner bytes
and checksum are untouched, so only the tag is malformed. -/
def badTagFrame : List Nat :=
  [0x00, 0xC0, 0xD4, 0x04, 0x3A, 0x0A, 0xA1, 0x60, 0x1D, 0xAB]

/-- C2: a frame whose first byte is not `0xAA` is nevertheless decoded
successfully — the tag check on line 71 of the source compares the int
`packet[0]` against the bytes literal `b"\xAA"`, which is always unequal in
Python 3, and the two `not`s invert the test besides, so the
`"No matching tags"` branch is unreachable and malformed tags are never
rejected. -/
theorem C2_bad_tag_accepted :
    badTagFrame.getD 0 0 ≠ 0xAA ∧
      extract_data_from_incoming_packet badTagFrame =
        .ok ⟨0xC0, [0x04D4, 0x0A3A, 0x60A1], 0x1D⟩ :=
  ⟨by decide, rfl⟩

/-- C3 counterexample: the outgoing frame for command byte `0xB4` and
fifteen zero data bytes. Its checksum byte (offset 17) is `0x00`, while the
8-bit sum over frame bytes `[1..17)` — which includes the command byte —
is `0xB4`. -/
def allZeroPacket : List Nat :=
  [0xAA, 0xB4, 0, 0, 0, 0, 0, 0, 0, 0, 0, 0, 0, 0, 0, 0, 0, 0, 0xAB]

theorem C3_counterexample :
    build_packet 0xB4 (List.replicate 15 0) = some allZeroPacket ∧
      allZeroPacket.getD 17 0 ≠ ((allZeroPacket.drop 1).take 16).sum % 256 := by
  decide

/-- C3 amended: for every outgoing frame produced by `build_packet`, the
checksum byte at offset 17 equals the 8-bit additive sum over frame bytes
`[2..17)` — the 15 data bytes only; the command byte at offset 1 is not
covered. -/
theorem C3_outgoing_checksum (cmd : Nat) (data p : List Nat)
    (h : build_packet cmd data = some p) :
    p.getD 17 0 = ((p.drop 2).take 15).sum % 256 := by
  obtain ⟨hlen, rfl⟩ := build_packet_some h
  have hdrop :
      ((0xAA : Nat) :: cmd ::
          (data ++ [checksum_outgoing (0xAA :: cmd :: data), 0xAB])).drop 2 =
        data ++ [checksum_outgoing (0xAA :: cmd :: data), 0xAB] := rfl
  rw [hdrop]
  have htake :
      (data ++ [checksum_outgoing (0xAA :: cmd :: data), 0xAB]).take 15 =
        data := by
    rw [← hlen]
    exact List.take_left data _
  rw [htake]
  have hget :
      ((0xAA : Nat) :: cmd ::
          (data ++ [checksum_outgoing (0xAA :: cmd :: data), 0xAB])).getD 17 0 =
        (data ++ [checksum_outgoing (0xAA :: cmd :: data), 0xAB]).getD 15 0 := rfl
  rw [hget, List.getD_append_right _ _ _ _ (by omega)]
  rw [hlen]
  show checksum_outgoing (0xAA :: cmd :: data) = data.sum % 256
  unfold checksum_outgoing
  have hinner : (((0xAA : Nat) :: cmd :: data).drop 2).take 15 = data := by
    show data.take 15 = data
    rw [← hlen]
    exact List.take_length data
  rw [hinner, checksum_eq_sum_mod]

/-- C3 witness: the amended theorem applied to the all-zero data packet. -/
theorem C3_witness :
    allZeroPacket.getD 17 0 = ((allZeroPacket.drop 2).take 15).sum % 256 :=
  C3_outgoing_checksum 0xB4 (List.replicate 15 0) allZeroPacket (by decide)

/-- C4 counterexample: on the literal frame `AA C0 D4 04 3A 0A A1 60 1D AB`
the default scheme `<BHHHB` reads three 16-bit fields, so the decode result
is command `0xC0`, data `(0x04D4, 0x0A3A, 0x60A1)` and checksum byte
`0x1D` — not data `(.., .., 0xA1)` with checksum `0x60` — and the sum of
the bytes at offsets 2..7 mod 256 is `0x1D`, not `0x60`. -/
theorem C4_counterexample :
    extract_data_from_incoming_packet sampleFrame =
        .ok ⟨0xC0, [0x04D4, 0x0A3A, 0x60A1], 0x1D⟩ ∧
      ((sampleFrame.drop 2).take 6).sum % 256 ≠ 0x60 :=
  ⟨rfl, by decide⟩

/-- C4 amended: decoding the literal frame `AA C0 D4 04 3A 0A A1 60 1D AB`
with the default unpack scheme succeeds and yields command `0xC0`, data
fields `(0x04D4, 0x0A3A, 0x60A1)` (the third field is a little-endian u16
built from the bytes `A1 60`), and checksum byte `0x1D`, which equals the
sum of the bytes at offsets 2..7 inclusive mod 256. -/
theorem C4_sample_decode :
    extract_data_from_incoming_packet sampleFrame =
        .ok ⟨0xC0, [0x04D4, 0x0A3A, 0x60A1], 0x1D⟩ ∧
      ((sampleFrame.drop 2).take 6).sum % 256 = 0x1D :=
  ⟨rfl, by decide⟩

/-- C5: for every incoming frame that decode accepts, changing any single
byte within the checksum-covered region — offsets 2 through 7, the span
summed by `checksum_incoming`, which excludes head, tail and the checksum
byte itself — to a different byte value makes decode fail with the
checksum-mismatch error. -/
theorem C5_corruption_detected (packet : List Nat) (r : ParsedResponse)
    (i v : Nat)
    (hbytes : ∀ b ∈ packet, b < 256)
    (hok : extract_data_from_incoming_packet packet = .ok r)
    (hi2 : 2 ≤ i) (hi7 : i ≤ 7) (hv : v < 256)
    (hne : v ≠ packet.getD i 0) :
    extract_data_from_incoming_packet (packet.set i v) =
      .error .checksumMismatch := by
  obtain ⟨p0, p1, p2, p3, p4, p5, p6, p7, p8, p9, rfl⟩ :=
    exists_ten packet (extract_ok_length hok)
  have hp2 : p2 < 256 := hbytes p2 (by simp)
  have hp3 : p3 < 256 := hbytes p3 (by simp)
  have hp4 : p4 < 256 := hbytes p4 (by simp)
  have hp5 : p5 < 256 := hbytes p5 (by simp)
  have hp6 : p6 < 256 := hbytes p6 (by simp)
  have hp7 : p7 < 256 := hbytes p7 (by simp)
  have hsum : p8 = (p2 + p3 + p4 + p5 + p6 + p7) % 256 := by
    by_contra hc
    rw [extract_ten, if_neg hc] at hok
    exact Except.noConfusion hok
  interval_cases i
  · have hx : v ≠ p2 := hne
    have hset : [p0, p1, p2, p3, p4, p5, p6, p7, p8, p9].set 2 v =
        [p0, p1, v, p3, p4, p5, p6, p7, p8, p9] := rfl
    rw [hset, extract_ten, if_neg]
    omega
  · have hx : v ≠ p3 := hne
    have hset : [p0, p1, p2, p3, p4, p5, p6, p7, p8, p9].set 3 v =
        [p0, p1, p2, v, p4, p5, p6, p7, p8, p9] := rfl
    rw [hset, extract_ten, if_neg]
    omega
  · have hx : v ≠ p4 := hne
    have hset : [p0, p1, p2, p3, p4, p5, p6, p7, p8, p9].set 4 v =
        [p0, p1, p2, p3, v, p5, p6, p7, p8, p9] := rfl
    rw [hset, extract_ten, if_neg]
    omega
  · have hx : v ≠ p5 := hne
    have hset : [p0, p1, p2, p3, p4, p5, p6, p7, p8, p9].set 5 v =
        [p0, p1, p2, p3, p4, v, p6, p7, p8, p9] := rfl
    rw [hset, extract_ten, if_neg]
    omega
  · have hx : v ≠ p6 := hne
    have hset : [p0, p1, p2, p3, p4, p5, p6, p7, p8, p9].set 6 v =
        [p0, p1, p2, p3, p4, p5, v, p7, p8, p9] := rfl
    rw [hset, extract_ten, if_neg]
    omega
  · have hx : v ≠ p7 := hne
    have hset : [p0, p1, p2, p3, p4, p5, p6, p7, p8, p9].set 7 v =
        [p0, p1, p2, p3, p4, p5, p6, v, p8, p9] := rfl
    rw [hset, extract_ten, if_neg]
    omega

/-- C5 witness: corrupting byte 2 of the valid sample frame (from `0xD4`
to `0x00`) makes decode fail with the checksum-mismatch error. -/
theorem C5_witness :
    extract_data_from_incoming_packet (sampleFrame.set 2 0) =
      .error .checksumMismatch :=
  C5_corruption_detected sampleFrame
    ⟨0xC0, [0x04D4, 0x0A3A, 0x60A1], 0x1D⟩ 2 0
    (by decide) rfl (by decide) (by decide) (by decide) (by decide)

/-- The 19-byte frame `build_packet_basic([4], None)` actually produces:
head, command `0xB4`, data byte 4, twelve zero pad bytes, broadcast ID
bytes, checksum `(4 + 0xFF + 0xFF) % 256 = 2`, tail. -/
def queryPacket : List Nat :=
  [0xAA, 0xB4, 4, 0, 0, 0, 0, 0, 0, 0, 0, 0, 0, 0, 0, 0xFF, 0xFF, 2, 0xAB]

/-- C6 counterexample: the round trip fails at a concrete valid input.
Encoding the query command succeeds, but decoding the resulting frame with
the default scheme fails with a bytestream mismatch — the encoder emits
19-byte frames while the decoder expects the 10-byte incoming layout. -/
theorem C6_counterexample :
    build_packet_basic [4] none = some queryPacket ∧
      extract_data_from_incoming_packet queryPacket =
        .error .bytestreamMismatch :=
  ⟨rfl, rfl⟩

/-- C6 amended: for every data list and address for which encoding succeeds,
decoding the frame produced by `build_packet_basic` with the default unpack
scheme always fails with the bytestream-mismatch parse error: the outgoing
frame is 19 bytes, whose 17 inner bytes can never match the 8-byte `<BHHHB`
layout, so no command or address byte is ever recovered. -/
theorem C6_roundtrip_always_fails (data : List Nat) (ID : Option Nat)
    (p : List Nat) (h : build_packet_basic data ID = some p) :
    extract_data_from_incoming_packet p = .error .bytestreamMismatch := by
  unfold build_packet_basic at h
  have hshape := build_packet_some h
  have hplen : p.length = 19 := by
    have h15 := hshape.1
    simp only [List.length_append, List.length_replicate] at h15
    rw [hshape.2]
    simp only [List.length_cons, List.length_append, List.length_replicate,
      List.length_nil]
    omega
  have hne8 : ((p.drop 1).dropLast).length ≠ 8 := by
    rw [List.length_dropLast, List.length_drop, hplen]
    decide
  rw [extract_eq, unpackBHHHB_eq_none _ hne8]
  rfl

/-- C6 witness: the amended theorem applied to the concrete query frame. -/
theorem C6_witness :
    extract_data_from_incoming_packet queryPacket =
      .error .bytestreamMismatch :=
  C6_roundtrip_always_fails [4] none queryPacket (by decide)

/-- C7: for every caller-supplied data list longer than 13 bytes, the
encoder fails — `[0] * (13 - len(data))` pads nothing, so
`[cmd] + data + ID` has more than 16 entries and the fixed 16-byte pack
fails; the oversize payload is surfaced as an error and never silently
truncated to fit the 13-byte content region. -/
theorem C7_oversize_payload_fails (data : List Nat) (ID : Option Nat)
    (h : 13 < data.length) :
    build_packet_basic data ID = none := by
  unfold build_packet_basic
  apply build_packet_none
  have hid := get_ID_bytes_length ID
  simp only [List.length_append, List.length_replicate, hid]
  omega

/-- C7 witness: a 14-byte payload is rejected. -/
theorem C7_witness : build_packet_basic (List.replicate 14 0) none = none :=
  C7_oversize_payload_fails (List.replicate 14 0) none (by decide)

/-- C8: for every byte sequence, `checksum` returns the plain sum of the
bytes modulo 256 — an unsigned 8-bit additive wraparound with no carry
beyond the low byte. -/
theorem C8_checksum_is_sum_mod (togenerate : List Nat) :
    checksum togenerate = togenerate.sum % 256 :=
  checksum_eq_sum_mod togenerate

/-- C9: `get_ID_bytes` applied to the numeric address 0 returns the
broadcast bytes `[0xFF, 0xFF]`, the same result as for an absent (`None`)
address, because the presence test `if ID:` is truthiness and `0` is falsy;
a sensor with device ID 0 therefore cannot be specifically addressed. -/
theorem C9_id_zero_is_broadcast :
    get_ID_bytes (some 0) = [0xFF, 0xFF] ∧
      get_ID_bytes (some 0) = get_ID_bytes none := by
  decide

/-- C10: `set_sleep_mode` and `set_work_mode` always return `None` — they
invoke `set_sleep_work_mode` but do not return its result — even though
`set_sleep_work_mode` itself returns `True` on every completed exchange; a
caller testing their result as a boolean always sees a falsy value. -/
theorem C10_mode_setters_return_none (data : List Nat) (ID : Option Nat) :
    (set_sleep_mode ID).2 = none ∧ (set_work_mode ID).2 = none ∧
      (set_sleep_work_mode data ID).2 = some true :=
  ⟨rfl, rfl, rfl⟩

end Sds011
